import Mathlib

/-
Verification of the secure-storage core of the jules-turbo repository
(src/lib/secureStorage.ts, reproduced inside src/src/lib/schema.ts).

The module protects one API key in localStorage: it derives an AES-GCM key
from a device fingerprint (SHA-256 of joined environment attributes, then
PBKDF2 with fixed salt "jules-turbo-v1" and 100000 iterations), encrypts the
key with a fresh 12-byte IV, stores base64(iv || ciphertext) under
"secure_jules_api_key", and migrates any legacy plaintext record stored
under "jules_api_key".

Modelling choices:
  * The browser primitives (TextEncoder/TextDecoder, crypto.subtle digest /
    PBKDF2 / AES-GCM, btoa/atob, getRandomValues) are not part of the
    repository; they are modelled as a `Platform` record of abstract
    functions together with the behaviour the Web platform guarantees
    (round-trips, byte-valued outputs).  Randomness is made explicit: the
    12-byte IV drawn by crypto.getRandomValues is an argument of the
    operations that encrypt.
  * localStorage is a function from keys to optional string values.
  * JavaScript truthiness of `string | null` (null and "" are falsy) is
    modelled by `jsTruthy`.
  * Availability of crypto.subtle is a boolean field of the environment;
    when it is false, deriveKey/encrypt/decrypt throw, which the source
    converts into the fixed error strings modelled here.  This is the only
    failure mode of the primitives in the model.
-/

namespace SecureStorage

/-- Bytes are modelled as natural numbers; real byte values are `< 256`. -/
abbrev Bytes := List Nat

/-- The browser environment observed by the fingerprint generator, plus
whether the Web Crypto primitives are available
(`typeof crypto.subtle !== "undefined"` etc.). -/
structure Env where
  userAgent : String
  language : String
  colorDepth : Nat
  width : Nat
  height : Nat
  timezoneOffset : Int
  avail : Bool

/-- The Web-platform primitives used by secureStorage.ts, together with the
behaviour the platform guarantees.  `utf8Encode`/`utf8Decode` are
TextEncoder/TextDecoder (the decoder is total: invalid input is replaced,
never thrown).  `aesGcmEnc k iv m` is AES-GCM encryption producing
ciphertext-plus-tag; `aesGcmDec` is authenticated decryption, returning
`none` on tag failure.  `btoa`/`atob` are base64 over byte lists; `atob`
returns `none` on malformed input.  `sha256` and `pbkdf2` need no laws for
the claims below. -/
structure Platform where
  utf8Encode : String → Bytes
  utf8Decode : Bytes → String
  sha256 : Bytes → Bytes
  pbkdf2 : Bytes → Bytes → Nat → Bytes
  aesGcmEnc : Bytes → Bytes → Bytes → Bytes
  aesGcmDec : Bytes → Bytes → Bytes → Option Bytes
  btoa : Bytes → String
  atob : String → Option Bytes
  utf8_roundtrip : ∀ s, utf8Decode (utf8Encode s) = s
  utf8_bytes : ∀ s, ∀ b ∈ utf8Encode s, b < 256
  aes_roundtrip : ∀ k iv m, (∀ b ∈ m, b < 256) → aesGcmDec k iv (aesGcmEnc k iv m) = some m
  aes_enc_bytes : ∀ k iv m, (∀ b ∈ m, b < 256) → ∀ b ∈ aesGcmEnc k iv m, b < 256
  b64_roundtrip : ∀ bs, (∀ b ∈ bs, b < 256) → atob (btoa bs) = some bs

/-- localStorage, as a partial map from storage keys to values. -/
abbrev Store := String → Option String

/-- localStorage.getItem (null is `none`). -/
def Store.getItem (st : Store) (k : String) : Option String := st k

/-- localStorage.setItem. -/
def Store.setItem (st : Store) (k v : String) : Store :=
  fun k2 => if k2 = k then some v else st k2

/-- localStorage.removeItem. -/
def Store.removeItem (st : Store) (k : String) : Store :=
  fun k2 => if k2 = k then none else st k2

/-- JavaScript truthiness of a `string | null` value: null and the empty
string are falsy. -/
def jsTruthy : Option String → Bool
  | none => false
  | some s => s != ""

/-- JavaScript String.prototype.startsWith, modelled on the character
sequences of the two strings. -/
def jsStartsWith (s pre : String) : Bool := pre.data.isPrefixOf s.data

/-- KEY_NAME = "jules_api_key": the legacy plaintext storage key. -/
def KEY_NAME : String := "jules_api_key"

/-- STORAGE_PREFIX + KEY_NAME = "secure_jules_api_key": where the envelope
is stored (STORAGE_PREFIX is the string literal "secure_"). -/
def secureKeyName : String := "secure_" ++ KEY_NAME

/-- One hex digit, lower case (JS Number.prototype.toString(16)). -/
def hexDigit (n : Nat) : Char := "0123456789abcdef".data.getD n '0'

/-- A byte as two lower-case hex digits (b.toString(16).padStart(2, "0")
for byte values). -/
def hexByte (b : Nat) : String := String.mk [hexDigit (b / 16), hexDigit (b % 16)]

/-- getDeviceFingerprint: join the environment attributes with "|", UTF-8
encode, SHA-256, and render the digest as lower-case hex. -/
def getDeviceFingerprint (p : Platform) (e : Env) : String :=
  let components : List String :=
    [e.userAgent, e.language, toString e.colorDepth,
     toString e.width ++ "x" ++ toString e.height,
     toString e.timezoneOffset]
  let fingerprintStr := String.intercalate "|" components
  let hashBuffer := p.sha256 (p.utf8Encode fingerprintStr)
  String.join (hashBuffer.map hexByte)

/-- deriveKey: PBKDF2 over the UTF-8 bytes of the hex fingerprint, with the
fixed salt "jules-turbo-v1" and 100000 iterations, yielding the AES-GCM
key.  Recomputed on every call, never cached. -/
def deriveKey (p : Platform) (e : Env) : Bytes :=
  p.pbkdf2 (p.utf8Encode (getDeviceFingerprint p e))
    (p.utf8Encode "jules-turbo-v1") 100000

/-- The envelope produced for plaintext `s` with IV `iv`:
base64(iv || AES-GCM(key, iv, utf8(s))). -/
def envelopeOf (p : Platform) (e : Env) (iv : Bytes) (s : String) : String :=
  p.btoa (iv ++ p.aesGcmEnc (deriveKey p e) iv (p.utf8Encode s))

/-- encrypt: derive the key, draw the IV (here an explicit argument),
encrypt, frame iv || ciphertext, base64-encode.  When crypto.subtle is
unavailable the body throws and the catch rethrows the fixed message
"Failed to encrypt data". -/
def encrypt (p : Platform) (e : Env) (iv : Bytes) (plaintext : String) :
    Except String String :=
  if e.avail then
    Except.ok (p.btoa (iv ++ p.aesGcmEnc (deriveKey p e) iv (p.utf8Encode plaintext)))
  else
    Except.error "Failed to encrypt data"

/-- decrypt: derive the key, base64-decode (atob throws on malformed
input), split the first 12 bytes as IV and the rest as ciphertext+tag,
authenticated-decrypt, UTF-8 decode.  Every failure is caught and rethrown
as the fixed message "Failed to decrypt data - key may have changed or
data corrupted". -/
def decrypt (p : Platform) (e : Env) (encrypted : String) :
    Except String String :=
  if e.avail then
    match p.atob encrypted with
    | none => Except.error "Failed to decrypt data - key may have changed or data corrupted"
    | some combined =>
      match p.aesGcmDec (deriveKey p e) (combined.take 12) (combined.drop 12) with
      | none => Except.error "Failed to decrypt data - key may have changed or data corrupted"
      | some plainBytes => Except.ok (p.utf8Decode plainBytes)
  else
    Except.error "Failed to decrypt data - key may have changed or data corrupted"

/-- setSecureApiKey (store-secret): encrypt, store the envelope under
"secure_jules_api_key", then remove the legacy record under
"jules_api_key" — but only if it is truthy and does not start with
"secure_".  An encryption failure propagates and nothing is written. -/
def setSecureApiKey (p : Platform) (e : Env) (iv : Bytes) (apiKey : String)
    (st : Store) : Except String Store :=
  match encrypt p e iv apiKey with
  | Except.error msg => Except.error msg
  | Except.ok encrypted =>
    if jsTruthy ((st.setItem secureKeyName encrypted).getItem KEY_NAME)
        && !(jsStartsWith (((st.setItem secureKeyName encrypted).getItem KEY_NAME).getD "") "secure_") then
      Except.ok ((st.setItem secureKeyName encrypted).removeItem KEY_NAME)
    else
      Except.ok (st.setItem secureKeyName encrypted)

/-- getSecureApiKey (load-secret): if the entry at "secure_jules_api_key"
is truthy, try to decrypt it — on success return the plaintext, on failure
remove the entry and return null (the legacy record is NOT consulted on
this path).  Otherwise, if the legacy record is truthy, migrate it
(setSecureApiKey, then remove the legacy record) and return it; if
migration throws, return it anyway and leave storage untouched.  Otherwise
return null.  The function never throws. -/
def getSecureApiKey (p : Platform) (e : Env) (iv : Bytes) (st : Store) :
    Option String × Store :=
  if jsTruthy (st.getItem secureKeyName) then
    match decrypt p e ((st.getItem secureKeyName).getD "") with
    | Except.ok v => (some v, st)
    | Except.error _ => (none, st.removeItem secureKeyName)
  else
    if jsTruthy (st.getItem KEY_NAME) then
      match setSecureApiKey p e iv ((st.getItem KEY_NAME).getD "") st with
      | Except.ok st1 => (st.getItem KEY_NAME, st1.removeItem KEY_NAME)
      | Except.error _ => (st.getItem KEY_NAME, st)
    else
      (none, st)

/-- removeSecureApiKey (clear-secret): remove both storage entries.
Synchronous and total. -/
def removeSecureApiKey (st : Store) : Store :=
  (st.removeItem secureKeyName).removeItem KEY_NAME

/-- isSecureStorageAvailable (the Availability Probe): reports whether
crypto.subtle with its encrypt function is present. -/
def isSecureStorageAvailable (e : Env) : Bool := e.avail

/-- The storage state a JavaScript caller observes after a store-secret
call: the new store on success, the unchanged store when the call threw
(the throw happens before any write). -/
def storeOfResult (r : Except String Store) (st : Store) : Store :=
  match r with
  | Except.ok st1 => st1
  | Except.error _ => st

/-- A concrete text encoding for the witness platform: each character as
three base-256 digits of its code point. -/
def encBytes : List Char → List Nat
  | [] => []
  | c :: cs => c.toNat / 65536 :: c.toNat / 256 % 256 :: c.toNat % 256 :: encBytes cs

/-- Inverse of `encBytes`: reassemble each group of three digits. -/
def decBytes : List Nat → List Char
  | a :: b :: c :: rest => Char.ofNat (a * 65536 + b * 256 + c) :: decBytes rest
  | _ => []

/-- A concrete `Platform` instance witnessing that the platform laws are
satisfiable: character-level codecs and a trivially tagged cipher. -/
def mockPlatform : Platform where
  utf8Encode := fun s => encBytes s.data
  utf8Decode := fun bs => String.mk (decBytes bs)
  sha256 := fun _ => []
  pbkdf2 := fun _ _ _ => []
  aesGcmEnc := fun _ _ m => 1 :: m
  aesGcmDec := fun _ _ bs =>
    match bs with
    | 1 :: m => some m
    | _ => none
  btoa := fun bs => String.mk (bs.map Char.ofNat)
  atob := fun s => some (s.data.map Char.toNat)
  utf8_roundtrip := by
    intro s
    have key : ∀ cs : List Char, decBytes (encBytes cs) = cs := by
      intro cs
      induction cs with
      | nil => rfl
      | cons c cs ih =>
        show decBytes (c.toNat / 65536 :: c.toNat / 256 % 256 :: c.toNat % 256 :: encBytes cs)
          = c :: cs
        rw [decBytes]
        have harg : c.toNat / 65536 * 65536 + c.toNat / 256 % 256 * 256 + c.toNat % 256
            = c.toNat := by omega
        rw [harg, Char.ofNat_toNat, ih]
    show String.mk (decBytes (encBytes s.data)) = s
    rw [key]
  utf8_bytes := by
    intro s
    show ∀ b ∈ encBytes s.data, b < 256
    induction s.data with
    | nil => intro b hb; simp [encBytes] at hb
    | cons c cs ih =>
      intro b hb
      have hc : c.toNat < 1114112 := by
        rcases c.valid with h | ⟨_, h⟩ <;> (change c.val.toNat < 1114112) <;> omega
      simp only [encBytes, List.mem_cons] at hb
      rcases hb with h | h | h | h
      · omega
      · omega
      · omega
      · exact ih b h
  aes_roundtrip := by
    intro k iv m _
    rfl
  aes_enc_bytes := by
    intro k iv m hm b hb
    simp only [List.mem_cons] at hb
    rcases hb with h | h
    · omega
    · exact hm b h
  b64_roundtrip := by
    have key : ∀ l : List Nat, (∀ x ∈ l, x < 256) →
        List.map Char.toNat (List.map Char.ofNat l) = l := by
      intro l
      induction l with
      | nil => intro _; rfl
      | cons b rest ih =>
        intro hl
        have hb : b < 256 := hl b (List.mem_cons_self b rest)
        have hv : b.isValidChar := Or.inl (by omega)
        have hrest : ∀ x ∈ rest, x < 256 := fun x hx => hl x (List.mem_cons_of_mem b hx)
        simp only [List.map_cons]
        rw [ih hrest]
        have hhead : (Char.ofNat b).toNat = b := by
          unfold Char.ofNat
          rw [dif_pos hv]
          rfl
        rw [hhead]
    intro bs hbs
    show some ((String.mk (bs.map Char.ofNat)).data.map Char.toNat) = some bs
    have hdata : (String.mk (bs.map Char.ofNat)).data = bs.map Char.ofNat := rfl
    rw [hdata, key bs hbs]

/-- A concrete environment with the Web Crypto primitives available. -/
def envOk : Env := ⟨"Mozilla/5.0", "en-US", 24, 1920, 1080, 0, true⟩

/-- The same environment with the Web Crypto primitives unavailable (the
Availability Probe reports false). -/
def envNoCrypto : Env := ⟨"Mozilla/5.0", "en-US", 24, 1920, 1080, 0, false⟩

/-- A concrete 12-byte IV. -/
def iv12 : Bytes := [0, 1, 2, 3, 4, 5, 6, 7, 8, 9, 10, 11]

/-- A second, different concrete 12-byte IV. -/
def iv12b : Bytes := [99, 1, 2, 3, 4, 5, 6, 7, 8, 9, 10, 11]

/-- The empty localStorage. -/
def stEmpty : Store := fun _ => none

/-- A store holding an undecryptable envelope and a legacy plaintext
record. -/
def stBoth : Store := fun k =>
  if k = secureKeyName then some "x" else if k = KEY_NAME then some "k1" else none

/-- A store holding only a legacy record whose value starts with
"secure_". -/
def stLegacySecure : Store := fun k =>
  if k = KEY_NAME then some "secure_evil" else none

/-- A store holding only a legacy record with the empty-string value. -/
def stLegacyEmptyVal : Store := fun k =>
  if k = KEY_NAME then some "" else none

/-- A store holding only a legacy plaintext record. -/
def stLegacyOnly : Store := fun k =>
  if k = KEY_NAME then some "AIzaTest123" else none

/-- A store whose encrypted-storage entry holds the empty string. -/
def stCorruptEmptyVal : Store := fun k =>
  if k = secureKeyName then some "" else none

/-- A store whose encrypted-storage entry holds a non-envelope string. -/
def stCorrupt : Store := fun k =>
  if k = secureKeyName then some "corrupted_data_xyz123" else none

theorem key_ne : KEY_NAME ≠ secureKeyName := by decide

theorem secure_ne : secureKeyName ≠ KEY_NAME := by decide

theorem jsTruthy_some {v : String} (h : v ≠ "") : jsTruthy (some v) = true := by
  simp [jsTruthy, h]

theorem encrypt_avail (p : Platform) (e : Env) (iv : Bytes) (s : String)
    (ha : e.avail = true) :
    encrypt p e iv s = Except.ok (envelopeOf p e iv s) := by
  simp [encrypt, envelopeOf, ha]

theorem encrypt_unavail (p : Platform) (e : Env) (iv : Bytes) (s : String)
    (ha : e.avail = false) :
    encrypt p e iv s = Except.error "Failed to encrypt data" := by
  simp [encrypt, ha]

theorem envelope_bytes (p : Platform) (e : Env) (iv : Bytes) (s : String)
    (hbytes : ∀ b ∈ iv, b < 256) :
    ∀ b ∈ iv ++ p.aesGcmEnc (deriveKey p e) iv (p.utf8Encode s), b < 256 := by
  intro b hb
  rcases List.mem_append.mp hb with h | h
  · exact hbytes b h
  · exact p.aes_enc_bytes _ _ _ (p.utf8_bytes s) b h

theorem decrypt_envelopeOf (p : Platform) (e : Env) (iv : Bytes) (s : String)
    (ha : e.avail = true) (hlen : iv.length = 12) (hbytes : ∀ b ∈ iv, b < 256) :
    decrypt p e (envelopeOf p e iv s) = Except.ok s := by
  have hb64 := p.b64_roundtrip _ (envelope_bytes p e iv s hbytes)
  have ht : List.take 12 (iv ++ p.aesGcmEnc (deriveKey p e) iv (p.utf8Encode s)) = iv :=
    List.take_left' hlen
  have hd : List.drop 12 (iv ++ p.aesGcmEnc (deriveKey p e) iv (p.utf8Encode s))
      = p.aesGcmEnc (deriveKey p e) iv (p.utf8Encode s) :=
    List.drop_left' hlen
  simp only [decrypt, envelopeOf, ha, if_true]
  rw [hb64]
  simp only [ht, hd, p.aes_roundtrip _ _ _ (p.utf8_bytes s), p.utf8_roundtrip]

theorem btoa_inj (p : Platform) {x y : Bytes} (hx : ∀ b ∈ x, b < 256)
    (hy : ∀ b ∈ y, b < 256) (h : p.btoa x = p.btoa y) : x = y := by
  have h1 := p.b64_roundtrip x hx
  have h2 := p.b64_roundtrip y hy
  rw [h, h2] at h1
  exact (Option.some.inj h1).symm

theorem setSecureApiKey_ok (p : Platform) (e : Env) (iv : Bytes) (s : String)
    (st : Store) (ha : e.avail = true) :
    setSecureApiKey p e iv s st = Except.ok (
      if jsTruthy (st.getItem KEY_NAME)
          && !(jsStartsWith ((st.getItem KEY_NAME).getD "") "secure_") then
        (st.setItem secureKeyName (envelopeOf p e iv s)).removeItem KEY_NAME
      else
        st.setItem secureKeyName (envelopeOf p e iv s)) := by
  have hleg1 : (st.setItem secureKeyName (envelopeOf p e iv s)).getItem KEY_NAME
      = st.getItem KEY_NAME := by
    simp [Store.getItem, Store.setItem, key_ne]
  simp only [setSecureApiKey, encrypt_avail p e iv s ha, hleg1]
  split <;> rfl

theorem setSecureApiKey_frame (p : Platform) (e : Env) (iv : Bytes) (s : String)
    (st : Store) (k : String) (h1 : k ≠ KEY_NAME) (h2 : k ≠ secureKeyName) :
    storeOfResult (setSecureApiKey p e iv s st) st k = st k := by
  unfold setSecureApiKey
  cases hE : encrypt p e iv s with
  | error msg => rfl
  | ok enc =>
    simp only [storeOfResult]
    split
    · simp [Store.removeItem, Store.setItem, h1, h2]
    · simp [Store.setItem, h2]

theorem getSecureApiKey_frame (p : Platform) (e : Env) (iv : Bytes)
    (st : Store) (k : String) (h1 : k ≠ KEY_NAME) (h2 : k ≠ secureKeyName) :
    (getSecureApiKey p e iv st).snd k = st k := by
  unfold getSecureApiKey
  split
  · split
    · rfl
    · simp [Store.removeItem, h2]
  · split
    · split
      · rename_i st1 heq
        have hfr := setSecureApiKey_frame p e iv ((st.getItem KEY_NAME).getD "") st k h1 h2
        rw [heq] at hfr
        simp only [storeOfResult] at hfr
        simp [Store.removeItem, h1, hfr]
      · rfl
    · rfl

/-- C1: the claim says that when the Availability Probe reports the
primitive unavailable, store-secret(s) writes s as the legacy plaintext
record, leaves no envelope, raises no error, and a subsequent load returns
s.  The code has no such fallback: setSecureApiKey never consults
isSecureStorageAvailable; encrypt throws "Failed to encrypt data", the
operation rejects, nothing is written, and a subsequent load returns
absence.  This theorem evaluates the model at the failing input
(secret "k1", empty store, crypto.subtle unavailable). -/
theorem store_unavailable_throws_no_fallback :
    isSecureStorageAvailable envNoCrypto = false ∧
    setSecureApiKey mockPlatform envNoCrypto iv12 "k1" stEmpty
      = Except.error "Failed to encrypt data" ∧
    (getSecureApiKey mockPlatform envNoCrypto iv12 stEmpty).fst = none :=
  ⟨rfl, rfl, rfl⟩

/-- Claim C2 counterexample: with an undecryptable envelope "x" at
secure_jules_api_key AND a legacy plaintext record "k1" at jules_api_key,
load-secret returns absence — it does NOT proceed to the legacy-record
step and does not return "k1"; the legacy record is left untouched. -/
theorem load_corrupt_with_legacy_returns_none_cex :
    stBoth.getItem secureKeyName = some "x" ∧
    stBoth.getItem KEY_NAME = some "k1" ∧
    decrypt mockPlatform envOk "x"
      = Except.error "Failed to decrypt data - key may have changed or data corrupted" ∧
    (getSecureApiKey mockPlatform envOk iv12 stBoth).fst = none ∧
    (getSecureApiKey mockPlatform envOk iv12 stBoth).snd KEY_NAME = some "k1" :=
  ⟨rfl, rfl, rfl, rfl, rfl⟩

/-- C2 (amended): when the envelope at secure_jules_api_key fails to
decrypt, load-secret deletes the envelope and raises no error, but it
returns absence immediately: the legacy-record step is never reached, the
legacy plaintext record is not consulted and remains unchanged. -/
theorem load_decrypt_failure_skips_legacy (p : Platform) (e : Env) (iv : Bytes)
    (st : Store) (c msg : String) (hc : st.getItem secureKeyName = some c)
    (hne : c ≠ "") (hdec : decrypt p e c = Except.error msg) :
    (getSecureApiKey p e iv st).fst = none ∧
    (getSecureApiKey p e iv st).snd secureKeyName = none ∧
    (getSecureApiKey p e iv st).snd KEY_NAME = st.getItem KEY_NAME := by
  have hT : jsTruthy (st.getItem secureKeyName) = true := by
    rw [hc]; exact jsTruthy_some hne
  have hgd : (st.getItem secureKeyName).getD "" = c := by rw [hc]; rfl
  unfold getSecureApiKey
  rw [hT, hgd, hdec]
  refine ⟨?_, ?_, ?_⟩ <;> simp [Store.removeItem, Store.getItem, key_ne]

/-- Claim C2 witness: the amended theorem applied to the concrete store
holding the undecryptable envelope "x" and the legacy record "k1". -/
theorem load_decrypt_failure_skips_legacy_witness :
    (getSecureApiKey mockPlatform envOk iv12 stBoth).fst = none ∧
    (getSecureApiKey mockPlatform envOk iv12 stBoth).snd secureKeyName = none ∧
    (getSecureApiKey mockPlatform envOk iv12 stBoth).snd KEY_NAME
      = stBoth.getItem KEY_NAME :=
  load_decrypt_failure_skips_legacy mockPlatform envOk iv12 stBoth "x"
    "Failed to decrypt data - key may have changed or data corrupted"
    rfl (by decide) rfl

/-- Claim C3 counterexample: storing a secret while the legacy record
holds a value that starts with "secure_" leaves the legacy record in
place: the store operation succeeds but jules_api_key still holds
"secure_evil" afterwards, contradicting "the Legacy Plaintext Record at
jules_api_key is absent" for every prior legacy value. -/
theorem store_legacy_prefixed_not_removed_cex :
    stLegacySecure.getItem KEY_NAME = some "secure_evil" ∧
    (setSecureApiKey mockPlatform envOk iv12 "k1" stLegacySecure).isOk = true ∧
    storeOfResult (setSecureApiKey mockPlatform envOk iv12 "k1" stLegacySecure)
      stLegacySecure KEY_NAME = some "secure_evil" :=
  ⟨rfl, by decide, by decide⟩

/-- C3 (amended): with the primitive available, store-secret(s) writes an
envelope encrypting s at secure_jules_api_key and removes the legacy
plaintext record, provided the legacy value is non-empty and does not
start with "secure_" (JavaScript truthiness skips the empty string, and
the startsWith guard skips "secure_"-prefixed values). -/
theorem store_writes_envelope_and_self_heals (p : Platform) (e : Env)
    (iv : Bytes) (s : String) (st : Store) (v : String)
    (ha : e.avail = true) (hleg : st.getItem KEY_NAME = some v) (hv : v ≠ "")
    (hpre : jsStartsWith v "secure_" = false)
    (hlen : iv.length = 12) (hbytes : ∀ b ∈ iv, b < 256) :
    setSecureApiKey p e iv s st
      = Except.ok ((st.setItem secureKeyName (envelopeOf p e iv s)).removeItem KEY_NAME) ∧
    storeOfResult (setSecureApiKey p e iv s st) st secureKeyName
      = some (envelopeOf p e iv s) ∧
    storeOfResult (setSecureApiKey p e iv s st) st KEY_NAME = none ∧
    decrypt p e (envelopeOf p e iv s) = Except.ok s := by
  have hcond : (jsTruthy (st.getItem KEY_NAME)
      && !(jsStartsWith ((st.getItem KEY_NAME).getD "") "secure_")) = true := by
    rw [hleg]
    simp [jsTruthy_some hv, Option.getD, hpre]
  have h1 : setSecureApiKey p e iv s st
      = Except.ok ((st.setItem secureKeyName (envelopeOf p e iv s)).removeItem KEY_NAME) := by
    rw [setSecureApiKey_ok p e iv s st ha, hcond]
    rfl
  refine ⟨h1, ?_, ?_, decrypt_envelopeOf p e iv s ha hlen hbytes⟩
  · rw [h1]
    simp [storeOfResult, Store.removeItem, Store.setItem, secure_ne]
  · rw [h1]
    simp [storeOfResult, Store.removeItem]

/-- Claim C3 witness: the amended theorem applied with secret "k1" to a
store whose legacy record holds "AIzaTest123". -/
theorem store_writes_envelope_and_self_heals_witness :
    setSecureApiKey mockPlatform envOk iv12 "k1" stLegacyOnly
      = Except.ok ((stLegacyOnly.setItem secureKeyName
          (envelopeOf mockPlatform envOk iv12 "k1")).removeItem KEY_NAME) ∧
    storeOfResult (setSecureApiKey mockPlatform envOk iv12 "k1" stLegacyOnly)
      stLegacyOnly secureKeyName = some (envelopeOf mockPlatform envOk iv12 "k1") ∧
    storeOfResult (setSecureApiKey mockPlatform envOk iv12 "k1" stLegacyOnly)
      stLegacyOnly KEY_NAME = none ∧
    decrypt mockPlatform envOk (envelopeOf mockPlatform envOk iv12 "k1")
      = Except.ok "k1" :=
  store_writes_envelope_and_self_heals mockPlatform envOk iv12 "k1" stLegacyOnly
    "AIzaTest123" rfl rfl (by decide) (by decide) (by decide) (by decide)

/-- Claim C4 counterexample: starting from a store containing only a
legacy plaintext record with the empty-string value, load-secret returns
absence (not the stored value ""), leaves the legacy record in place and
creates no envelope — JavaScript truthiness treats "" as absent. -/
theorem load_migration_empty_value_cex :
    stLegacyEmptyVal.getItem secureKeyName = none ∧
    stLegacyEmptyVal.getItem KEY_NAME = some "" ∧
    (getSecureApiKey mockPlatform envOk iv12 stLegacyEmptyVal).fst = none ∧
    (getSecureApiKey mockPlatform envOk iv12 stLegacyEmptyVal).snd KEY_NAME = some "" ∧
    (getSecureApiKey mockPlatform envOk iv12 stLegacyEmptyVal).snd secureKeyName = none :=
  ⟨rfl, rfl, rfl, rfl, rfl⟩

/-- C4 (amended): for every NON-EMPTY value v, starting from a storage
state with no envelope and a legacy plaintext record v, load-secret
returns v, and afterwards the legacy record is absent and an envelope
(encrypting v) is present at secure_jules_api_key. -/
theorem load_migrates_legacy_record (p : Platform) (e : Env) (iv : Bytes)
    (st : Store) (v : String) (ha : e.avail = true)
    (hsec : st.getItem secureKeyName = none)
    (hleg : st.getItem KEY_NAME = some v) (hv : v ≠ "") :
    (getSecureApiKey p e iv st).fst = some v ∧
    (getSecureApiKey p e iv st).snd secureKeyName = some (envelopeOf p e iv v) ∧
    (getSecureApiKey p e iv st).snd KEY_NAME = none := by
  have hT : jsTruthy (st.getItem secureKeyName) = false := by rw [hsec]; rfl
  have hL : jsTruthy (st.getItem KEY_NAME) = true := by
    rw [hleg]; exact jsTruthy_some hv
  have hgd : (st.getItem KEY_NAME).getD "" = v := by rw [hleg]; rfl
  have hset := setSecureApiKey_ok p e iv v st ha
  by_cases hcond : (jsTruthy (st.getItem KEY_NAME)
      && !(jsStartsWith ((st.getItem KEY_NAME).getD "") "secure_")) = true
  · rw [hcond] at hset
    simp only [if_true] at hset
    refine ⟨?_, ?_, ?_⟩ <;>
      simp [getSecureApiKey, hT, hL, hgd, hset, hleg, jsTruthy_some hv,
        Store.removeItem, Store.setItem, key_ne, secure_ne]
  · rw [Bool.not_eq_true] at hcond
    rw [hcond] at hset
    simp only [Bool.false_eq_true, if_false] at hset
    refine ⟨?_, ?_, ?_⟩ <;>
      simp [getSecureApiKey, hT, hL, hgd, hset, hleg, jsTruthy_some hv,
        Store.removeItem, Store.setItem, key_ne, secure_ne]

/-- Claim C4 witness: migration of the spec's example value "AIzaTest123"
from a store containing only the legacy record. -/
theorem load_migrates_legacy_record_witness :
    (getSecureApiKey mockPlatform envOk iv12 stLegacyOnly).fst = some "AIzaTest123" ∧
    (getSecureApiKey mockPlatform envOk iv12 stLegacyOnly).snd secureKeyName
      = some (envelopeOf mockPlatform envOk iv12 "AIzaTest123") ∧
    (getSecureApiKey mockPlatform envOk iv12 stLegacyOnly).snd KEY_NAME = none :=
  load_migrates_legacy_record mockPlatform envOk iv12 stLegacyOnly "AIzaTest123"
    rfl rfl rfl (by decide)

/-- C5: if the re-encrypt step of migration fails (the only failure mode
of encryption in the model is primitive unavailability), load-secret
still returns the legacy plaintext value, the whole storage state —
including the legacy record — is unchanged, and no error is raised (the
operation returns a value rather than rejecting). -/
theorem load_migration_failure_preserves_legacy (p : Platform) (e : Env)
    (iv : Bytes) (st : Store) (v : String) (ha : e.avail = false)
    (hsec : jsTruthy (st.getItem secureKeyName) = false)
    (hleg : st.getItem KEY_NAME = some v) (hv : v ≠ "") :
    getSecureApiKey p e iv st = (some v, st) := by
  have hL : jsTruthy (st.getItem KEY_NAME) = true := by
    rw [hleg]; exact jsTruthy_some hv
  have hgd : (st.getItem KEY_NAME).getD "" = v := by rw [hleg]; rfl
  have hset : setSecureApiKey p e iv ((st.getItem KEY_NAME).getD "") st
      = Except.error "Failed to encrypt data" := by
    unfold setSecureApiKey
    rw [encrypt_unavail p e iv _ ha]
  rw [hgd] at hset
  simp [getSecureApiKey, hsec, hL, hgd, hset, hleg, jsTruthy_some hv]

/-- Claim C5 witness: with crypto unavailable and only the legacy record
"AIzaTest123" stored, load returns "AIzaTest123" and leaves the store
untouched. -/
theorem load_migration_failure_preserves_legacy_witness :
    getSecureApiKey mockPlatform envNoCrypto iv12 stLegacyOnly
      = (some "AIzaTest123", stLegacyOnly) :=
  load_migration_failure_preserves_legacy mockPlatform envNoCrypto iv12
    stLegacyOnly "AIzaTest123" rfl rfl rfl (by decide)

/-- Claim C6 counterexample: the empty string stored at
secure_jules_api_key is not a decryptable envelope, yet load-secret does
NOT remove that entry (truthiness skips it): it returns absence but the
entry survives, contradicting "removes that storage entry" for every
non-decryptable stored string. -/
theorem load_empty_corrupt_entry_not_removed_cex :
    decrypt mockPlatform envOk ""
      = Except.error "Failed to decrypt data - key may have changed or data corrupted" ∧
    stCorruptEmptyVal.getItem secureKeyName = some "" ∧
    stCorruptEmptyVal.getItem KEY_NAME = none ∧
    (getSecureApiKey mockPlatform envOk iv12 stCorruptEmptyVal).fst = none ∧
    (getSecureApiKey mockPlatform envOk iv12 stCorruptEmptyVal).snd secureKeyName
      = some "" :=
  ⟨rfl, rfl, rfl, rfl, rfl⟩

/-- C6 (amended): for every NON-EMPTY stored string at
secure_jules_api_key that fails to decrypt, with no legacy record
present, load-secret returns absence, removes the entry and raises no
error — observationally identical to a store where no secret was ever
stored, whose load also returns absence. -/
theorem load_undecryptable_entry_removed (p : Platform) (e : Env) (iv : Bytes)
    (st : Store) (c msg : String) (hc : st.getItem secureKeyName = some c)
    (hne : c ≠ "") (hdec : decrypt p e c = Except.error msg)
    (_hleg : st.getItem KEY_NAME = none) :
    getSecureApiKey p e iv st = (none, st.removeItem secureKeyName) ∧
    (getSecureApiKey p e iv stEmpty).fst = none := by
  have hT : jsTruthy (st.getItem secureKeyName) = true := by
    rw [hc]; exact jsTruthy_some hne
  have hgd : (st.getItem secureKeyName).getD "" = c := by rw [hc]; rfl
  refine ⟨?_, rfl⟩
  simp [getSecureApiKey, hT, hgd, hdec]

/-- Claim C6 witness: the amended theorem applied to the spec's example
corrupted value "corrupted_data_xyz123" with no legacy record. -/
theorem load_undecryptable_entry_removed_witness :
    getSecureApiKey mockPlatform envOk iv12 stCorrupt
      = (none, stCorrupt.removeItem secureKeyName) ∧
    (getSecureApiKey mockPlatform envOk iv12 stEmpty).fst = none :=
  load_undecryptable_entry_removed mockPlatform envOk iv12 stCorrupt
    "corrupted_data_xyz123"
    "Failed to decrypt data - key may have changed or data corrupted"
    rfl (by decide) rfl rfl

/-- C7: round-trip — for every plaintext s (and every 12-byte IV drawn by
the random source), encrypting under the derived key of a device
environment and decrypting the resulting envelope in the same environment
yields exactly s: decryption of a well-formed envelope returns the whole
original plaintext, never a truncated or partial result, and the two
calls derive the same key because key derivation is deterministic in the
environment. -/
theorem encrypt_decrypt_roundtrip (p : Platform) (e : Env) (iv : Bytes)
    (s : String) (ha : e.avail = true) (hlen : iv.length = 12)
    (hbytes : ∀ b ∈ iv, b < 256) :
    encrypt p e iv s = Except.ok (envelopeOf p e iv s) ∧
    decrypt p e (envelopeOf p e iv s) = Except.ok s :=
  ⟨encrypt_avail p e iv s ha, decrypt_envelopeOf p e iv s ha hlen hbytes⟩

/-- Claim C7 witness: the round-trip theorem at the concrete secret
"AIzaTest123456789" and a concrete 12-byte IV. -/
theorem encrypt_decrypt_roundtrip_witness :
    encrypt mockPlatform envOk iv12 "AIzaTest123456789"
      = Except.ok (envelopeOf mockPlatform envOk iv12 "AIzaTest123456789") ∧
    decrypt mockPlatform envOk (envelopeOf mockPlatform envOk iv12 "AIzaTest123456789")
      = Except.ok "AIzaTest123456789" :=
  encrypt_decrypt_roundtrip mockPlatform envOk iv12 "AIzaTest123456789"
    rfl rfl (by decide)

/-- C8: for a fixed plaintext and environment (hence a fixed derived
key), two encrypt calls whose independently drawn 12-byte nonces differ
produce different stored envelopes (the base64 framing of iv followed by
ciphertext is injective on byte sequences, and the first 12 bytes are the
nonce). -/
theorem encrypt_distinct_nonces_distinct_envelopes (p : Platform) (e : Env)
    (iv1 iv2 : Bytes) (s : String) (ha : e.avail = true)
    (h1 : iv1.length = 12) (h2 : iv2.length = 12)
    (hb1 : ∀ b ∈ iv1, b < 256) (hb2 : ∀ b ∈ iv2, b < 256)
    (hne : iv1 ≠ iv2) :
    encrypt p e iv1 s = Except.ok (envelopeOf p e iv1 s) ∧
    encrypt p e iv2 s = Except.ok (envelopeOf p e iv2 s) ∧
    envelopeOf p e iv1 s ≠ envelopeOf p e iv2 s := by
  refine ⟨encrypt_avail p e iv1 s ha, encrypt_avail p e iv2 s ha, ?_⟩
  intro h
  apply hne
  have hx := envelope_bytes p e iv1 s hb1
  have hy := envelope_bytes p e iv2 s hb2
  have happ := btoa_inj p hx hy h
  have t1 : List.take 12 (iv1 ++ p.aesGcmEnc (deriveKey p e) iv1 (p.utf8Encode s))
      = iv1 := List.take_left' h1
  have t2 : List.take 12 (iv2 ++ p.aesGcmEnc (deriveKey p e) iv2 (p.utf8Encode s))
      = iv2 := List.take_left' h2
  rw [← t1, ← t2, happ]

/-- Claim C8 witness: two concrete distinct 12-byte IVs produce distinct
envelopes for the same plaintext "k1" in the same environment. -/
theorem encrypt_distinct_nonces_distinct_envelopes_witness :
    encrypt mockPlatform envOk iv12 "k1"
      = Except.ok (envelopeOf mockPlatform envOk iv12 "k1") ∧
    encrypt mockPlatform envOk iv12b "k1"
      = Except.ok (envelopeOf mockPlatform envOk iv12b "k1") ∧
    envelopeOf mockPlatform envOk iv12 "k1" ≠ envelopeOf mockPlatform envOk iv12b "k1" :=
  encrypt_distinct_nonces_distinct_envelopes mockPlatform envOk iv12 iv12b "k1"
    rfl rfl rfl (by decide) (by decide) (by decide)

/-- C9: clear-secret removes both the envelope and the legacy plaintext
record from every prior storage state, never fails (it is a total
function), and is idempotent: a second call leaves the storage state
exactly as the first call left it, and on an already-empty store both
keys are absent with no error. -/
theorem clear_removes_both_and_idempotent : ∀ st : Store,
    removeSecureApiKey st secureKeyName = none ∧
    removeSecureApiKey st KEY_NAME = none ∧
    removeSecureApiKey (removeSecureApiKey st) = removeSecureApiKey st := by
  intro st
  refine ⟨?_, ?_, ?_⟩
  · simp [removeSecureApiKey, Store.removeItem, secure_ne]
  · simp [removeSecureApiKey, Store.removeItem]
  · funext k
    simp only [removeSecureApiKey, Store.removeItem]
    by_cases h1 : k = KEY_NAME
    · simp [h1]
    · by_cases h2 : k = secureKeyName
      · simp [h1, h2]
      · simp [h1, h2]

/-- Claim C9 witness: the clear operation applied to the concrete store
holding both records. -/
theorem clear_removes_both_and_idempotent_witness :
    removeSecureApiKey stBoth secureKeyName = none ∧
    removeSecureApiKey stBoth KEY_NAME = none ∧
    removeSecureApiKey (removeSecureApiKey stBoth) = removeSecureApiKey stBoth :=
  clear_removes_both_and_idempotent stBoth

/-- C10: frame property — every façade operation (store-secret,
load-secret, clear-secret) reads and writes only the storage keys
jules_api_key and secure_jules_api_key: the value of every other key is
unchanged by each operation (on store-secret, the state the JavaScript
caller observes is the new store on success and the unchanged store on a
throw). -/
theorem facade_frame (p : Platform) (e : Env) (iv : Bytes) (s : String)
    (st : Store) (k : String) (h1 : k ≠ KEY_NAME) (h2 : k ≠ secureKeyName) :
    storeOfResult (setSecureApiKey p e iv s st) st k = st k ∧
    (getSecureApiKey p e iv st).snd k = st k ∧
    removeSecureApiKey st k = st k :=
  ⟨setSecureApiKey_frame p e iv s st k h1 h2,
   getSecureApiKey_frame p e iv st k h1 h2,
   by simp [removeSecureApiKey, Store.removeItem, h1, h2]⟩

/-- Claim C10 witness: the frame property at the concrete unrelated key
"theme" over a store holding both records. -/
theorem facade_frame_witness :
    storeOfResult (setSecureApiKey mockPlatform envOk iv12 "k1" stBoth) stBoth "theme"
      = stBoth "theme" ∧
    (getSecureApiKey mockPlatform envOk iv12 stBoth).snd "theme" = stBoth "theme" ∧
    removeSecureApiKey stBoth "theme" = stBoth "theme" :=
  facade_frame mockPlatform envOk iv12 "k1" stBoth "theme" (by decide) (by decide)

end SecureStorage
